import Mathlib

/-!
Shallow embedding of the `mbcj-hooks` repository (src/useEnv.js and
src/useUser.js) into Lean 4.

Modelling conventions:
* JavaScript values flowing through the hooks are modelled by `JsValue`
  (undefined, null, booleans, integer numbers, strings, and objects as
  ordered field lists).  JS numbers are modelled as integers; `NaN` is
  modelled by `Option` (`none` = the computation produced NaN or threw).
* `localStorage` is an association list from keys to strings; `getItem`
  returns `none` for an absent key (JS `null`).
* The external collaborators `jwtDecode` and `JSON.parse` are opaque
  functions supplied through an `Env` record (`none` models a thrown
  decode/parse error), together with the configured `BASENAME` prefix,
  the `TEST` flag and the current time in milliseconds (`new Date()`).
* `JSON.stringify` is implemented concretely (`none` = JS `undefined`).
* The React `useState` slots of `useUser` form the record `UserState`;
  every operation takes and returns the state and the storage explicitly.
-/

/-- A JavaScript value as used by the hooks: `undefined`, `null`, booleans,
(integer) numbers, strings, and objects given as an ordered list of fields. -/
inductive JsValue where
  | undef : JsValue
  | null : JsValue
  | bool (b : Bool) : JsValue
  | num (n : Int) : JsValue
  | str (s : String) : JsValue
  | obj (fields : List (String × JsValue)) : JsValue

namespace JsValue

/-- JS truthiness of a value (`if (v)`).  `undefined`, `null`, `false`,
`0` and `""` are falsy; every object is truthy. -/
def truthy : JsValue → Bool
  | undef => false
  | null => false
  | bool b => b
  | num n => n != 0
  | str s => s != ""
  | obj _ => true

/-- JS `typeof v` (restricted to the value forms of `JsValue`;
note `typeof null = "object"`). -/
def jsTypeof : JsValue → String
  | undef => "undefined"
  | null => "object"
  | bool _ => "boolean"
  | num _ => "number"
  | str _ => "string"
  | obj _ => "object"

end JsValue

namespace JsValue

/-- JS property access `v.k`.  `none` models a thrown `TypeError`
(access on `null`/`undefined`); a missing field, or access on a
primitive, yields `undefined`. -/
def getProp : JsValue → String → Option JsValue
  | undef, _ => none
  | null, _ => none
  | obj fs, k => some ((fs.lookup k).getD undef)
  | _, _ => some undef

/-- JS `String(v)` as performed by `localStorage.setItem` on a non-string
value (default `toString` for objects). -/
def jsToString : JsValue → String
  | undef => "undefined"
  | null => "null"
  | bool b => if b then "true" else "false"
  | num n => toString n
  | str s => s
  | obj _ => "[object Object]"

/-- The digit characters of the leading decimal-digit run of a string. -/
def takeDigits : List Char → List Char
  | [] => []
  | c :: cs => if c.isDigit then c :: takeDigits cs else []

/-- Value of a nonempty digit list; `none` when the list is empty
(no digits found, i.e. `NaN`). -/
def digitsToNat : List Char → Option Nat
  | [] => none
  | d :: ds => some ((d :: ds).foldl (fun acc c => acc * 10 + (c.toNat - 48)) 0)

/-- Whether a character counts as JS whitespace for numeric parsing. -/
def isJsSpace (c : Char) : Bool :=
  c = ' ' || c = '\t' || c = '\n' || c = '\r'

/-- JS `parseInt(s, 10)`: skip leading whitespace, optional sign, then the
leading run of decimal digits; `none` models `NaN`. -/
def parseIntStr (s : String) : Option Int :=
  match s.toList.dropWhile isJsSpace with
  | '-' :: rest => (digitsToNat (takeDigits rest)).map (fun n => -(n : Int))
  | '+' :: rest => (digitsToNat (takeDigits rest)).map (fun n => (n : Int))
  | cs => (digitsToNat (takeDigits cs)).map (fun n => (n : Int))

/-- JS `ToNumber` coercion of a fully numeric (integer) string, after
trimming whitespace; the empty string converts to `0`; `none` is `NaN`. -/
def strToNumber (s : String) : Option Int :=
  let cs := (s.toList.dropWhile isJsSpace).reverse.dropWhile isJsSpace |>.reverse
  match cs with
  | [] => some 0
  | '-' :: rest => if rest ≠ [] ∧ rest.all Char.isDigit then
      (digitsToNat rest).map (fun n => -(n : Int)) else none
  | '+' :: rest => if rest ≠ [] ∧ rest.all Char.isDigit then
      (digitsToNat rest).map (fun n => (n : Int)) else none
  | _ => if cs.all Char.isDigit then (digitsToNat cs).map (fun n => (n : Int)) else none

/-- JS `ToNumber` coercion as triggered by `v * 1000` (numbers modelled as
integers); `none` models `NaN`. -/
def toNumber : JsValue → Option Int
  | undef => none
  | null => some 0
  | bool b => some (if b then 1 else 0)
  | num n => some n
  | str s => strToNumber s
  | obj _ => none

/-- JS `{ ...v }` followed by `delete copy.k`: object spread (with the
index-property spread of strings) and removal of the field `k`. -/
def spreadDelete (v : JsValue) (k : String) : JsValue :=
  match v with
  | obj fs => obj (fs.filter (fun p => p.1 ≠ k))
  | str s => obj (((s.toList.enum.map
      (fun p => (toString p.1, str (String.singleton p.2)))).filter
      (fun p => p.1 ≠ k)))
  | _ => obj []

end JsValue

/-- JSON string escaping of one character (quote and backslash; other
characters are passed through). -/
def jsonEscapeChar (c : Char) : String :=
  if c = '"' then "\\\"" else if c = '\\' then "\\\\" else String.singleton c

/-- JSON string escaping. -/
def jsonEscape (s : String) : String :=
  String.join (s.toList.map jsonEscapeChar)

mutual

/-- `JSON.stringify` on a `JsValue`; `none` models the JS result
`undefined` (stringifying `undefined` itself). -/
def jsonStringifyCore : JsValue → Option String
  | JsValue.undef => none
  | JsValue.null => some "null"
  | JsValue.bool b => some (if b then "true" else "false")
  | JsValue.num n => some (toString n)
  | JsValue.str s => some ("\"" ++ jsonEscape s ++ "\"")
  | JsValue.obj fs => some ("\x7b" ++ String.intercalate "," (jsonStringifyFields fs) ++ "\x7d")

/-- `JSON.stringify` of an object's fields; fields whose value
stringifies to `undefined` are dropped, as in JS. -/
def jsonStringifyFields : List (String × JsValue) → List String
  | [] => []
  | (k, v) :: rest =>
    match jsonStringifyCore v with
    | none => jsonStringifyFields rest
    | some sv => ("\"" ++ jsonEscape k ++ "\":" ++ sv) :: jsonStringifyFields rest

end

/-- `localStorage.setItem(key, JSON.stringify(v))` stores the string
`"undefined"` when `stringify` yields `undefined` (string coercion). -/
def stringifyForStorage (v : JsValue) : String :=
  (jsonStringifyCore v).getD "undefined"

/-- The browser `localStorage`, as an ordered association list from keys
to string values. -/
abbrev Storage : Type := List (String × String)

namespace Storage

/-- `localStorage.getItem(k)`: `none` is the JS `null` for an absent key. -/
def getItem (sto : Storage) (k : String) : Option String :=
  List.lookup k sto

/-- `localStorage.setItem(k, v)`: afterwards `k` maps to `v` and every
other key keeps its value (the entry order of an association list is not
observable through `getItem`). -/
def setItem (sto : Storage) (k v : String) : Storage :=
  (k, v) :: List.filter (fun p => p.1 ≠ k) sto

/-- `localStorage.clear()`. -/
def clear (_sto : Storage) : Storage := []

/-- The empty storage. -/
def empty : Storage := []

end Storage

/-! ### Config Provider (src/useEnv.js) -/

/-- JS `x || ""` on an environment string (`none` = `undefined`). -/
def orEmpty (v : Option String) : String :=
  match v with
  | none => ""
  | some s => if s = "" then "" else s

/-- JS `String.prototype.toLowerCase`, modelled by the per-character
ASCII case mapping (which covers every value compared by `useEnv`). -/
def jsToLowerCase (s : String) : String :=
  String.mk (s.data.map Char.toLower)

/-- The `TEST` flag of `useEnv`:
`(env.VITE_TEST || "").toLowerCase() === "true"` (identically for the
`_DEV` namespace).  `v` is the matching environment value. -/
def viteTestFlag (v : Option String) : Bool :=
  jsToLowerCase (orEmpty v) == "true"

/-! ### Session Manager (src/useUser.js) -/

/-- The execution environment of `useUser`: the configuration supplied by
`useEnv` (`BASENAME`, `TEST`), the current time in milliseconds
(`new Date()`), and the external collaborators `jwtDecode` and
`JSON.parse` (both opaque; `none` models a thrown error). -/
structure Env where
  BASENAME : String
  TEST : Bool
  now : Int
  jwtDecode : String → Option JsValue
  jsonParse : String → Option JsValue

/-- The in-memory `useState` slots of `useUser`.  `logged = none` is the
initial `null` ("not yet verified"); `token = none` is the JS `null`. -/
structure UserState where
  usuario : JsValue
  persona : JsValue
  tipoUsuarioId : JsValue
  logged : Option Bool
  token : Option String

/-- The initial in-memory state of a freshly constructed hook instance:
every slot `null`. -/
def initState : UserState :=
  { usuario := JsValue.null, persona := JsValue.null,
    tipoUsuarioId := JsValue.null, logged := none, token := none }

/-- JS truthiness of a string-or-null value (`if (token)` where `token`
came from `localStorage.getItem`). -/
def optStrTruthy : Option String → Bool
  | none => false
  | some s => s != ""

/-- The JS value held by a string-or-null variable. -/
def jsOfOptStr : Option String → JsValue
  | none => JsValue.null
  | some s => JsValue.str s

/-- `getUsuarioFromStorage` (src/useUser.js:37-48): read
`` `${BASENAME}_datos` `` and parse it; returns the JS value of the call
(`.null` for a missing/empty slot or a parse error) and the storage after
the call (a parse error performs `localStorage.clear()`). -/
def getUsuarioFromStorage (env : Env) (sto : Storage) : JsValue × Storage :=
  match Storage.getItem sto (env.BASENAME ++ "_datos") with
  | none => (JsValue.null, sto)
  | some s =>
    if s = "" then (JsValue.null, sto)
    else
      match env.jsonParse s with
      | some v => (v, sto)
      | none => (JsValue.null, Storage.clear sto)

/-- `getUser` (src/useUser.js:55-68): set the `usuario` and `persona`
slots from the given data (or, when the argument is falsy, from storage),
splitting out the `persona` field. -/
def getUser (env : Env) (usuarioParam : JsValue) (st : UserState) (sto : Storage) :
    UserState × Storage :=
  let r := if usuarioParam.truthy then (usuarioParam, sto)
           else getUsuarioFromStorage env sto
  let datos := r.1
  if datos.truthy then
    let personaData := (datos.getProp "persona").getD JsValue.undef
    let usuarioState := datos.spreadDelete "persona"
    ({ st with persona := personaData, usuario := usuarioState }, r.2)
  else
    ({ st with persona := JsValue.null, usuario := JsValue.null }, r.2)

/-- `getTipoUsuario` (src/useUser.js:75-79): set the `tipoUsuarioId` slot
from the argument or, when it is falsy, from storage; returns the value
found. -/
def getTipoUsuario (env : Env) (tipo : JsValue) (st : UserState) (sto : Storage) :
    UserState × JsValue :=
  let tipoUsuarioIdLocal :=
    if tipo.truthy then tipo
    else jsOfOptStr (Storage.getItem sto (env.BASENAME ++ "_tipo_usuario_id"))
  ({ st with tipoUsuarioId := tipoUsuarioIdLocal }, tipoUsuarioIdLocal)

/-- `logout` (src/useUser.js:86-93): clear ALL of `localStorage` and reset
every in-memory slot (`logged` becomes `false`, not `null`). -/
def logout (_st : UserState) (sto : Storage) : UserState × Storage :=
  ({ usuario := JsValue.null, persona := JsValue.null,
     tipoUsuarioId := JsValue.null, logged := some false, token := none },
   Storage.clear sto)

/-- Millisecond values representable by a JS `Date` (`new Date(n)` is an
Invalid Date beyond 8,640,000,000,000,000 ms from the epoch, and the
comparison of an Invalid Date is always false). -/
def dateValid (n : Int) : Bool :=
  n.natAbs ≤ 8640000000000000

/-- The validity guard of `login` (src/useUser.js:102):
`typeof usuario !== 'object' || usuario === null`. -/
def invalidUsuarioArg (usuario : JsValue) : Bool :=
  !(usuario.jsTypeof == "object") || (match usuario with
    | JsValue.null => true
    | _ => false)

/-- `login` (src/useUser.js:101-127): validate the `usuario` argument,
decode the token, persist token / user-type id / serialized user data,
and update the in-memory slots; any exception inside the `try` block
(decode failure, or the field access `decoded.data.tipo_usuario_id`
throwing because `data` is null/undefined) triggers `logout()`. -/
def login (env : Env) (token : String) (usuario : JsValue)
    (st : UserState) (sto : Storage) : UserState × Storage :=
  if invalidUsuarioArg usuario then (st, sto)
  else
    match env.jwtDecode token with
    | none => logout st sto
    | some decoded =>
      match decoded.getProp "data" with
      | none => logout st sto
      | some dataV =>
        match dataV.getProp "tipo_usuario_id" with
        | none => logout st sto
        | some tipoUsuarioId =>
          let usuarioData := if dataV.truthy then dataV else usuario
          let sto1 := Storage.setItem sto (env.BASENAME ++ "_token") token
          let sto2 := Storage.setItem sto1 (env.BASENAME ++ "_tipo_usuario_id")
            tipoUsuarioId.jsToString
          let sto3 := Storage.setItem sto2 (env.BASENAME ++ "_datos")
            (stringifyForStorage usuarioData)
          let st1 := { st with token := some token, logged := some true }
          let r2 := getUser env usuarioData st1 sto3
          let r3 := getTipoUsuario env tipoUsuarioId r2.1 r2.2
          (r3.1, r2.2)

/-- `getLocalData` (src/useUser.js:135-155): read the three persisted
slots; when all are truthy set the in-memory state from them and return
the token, otherwise reset the in-memory state and return `null`. -/
def getLocalData (env : Env) (st : UserState) (sto : Storage) :
    UserState × Storage × Option String :=
  let token := Storage.getItem sto (env.BASENAME ++ "_token")
  let tipoUsuarioId := Storage.getItem sto (env.BASENAME ++ "_tipo_usuario_id")
  let r := getUsuarioFromStorage env sto
  let usuarioData := r.1
  let sto1 := r.2
  if optStrTruthy token && optStrTruthy tipoUsuarioId && usuarioData.truthy then
    let r1 := getUser env usuarioData st sto1
    let r2 := getTipoUsuario env (jsOfOptStr tipoUsuarioId) r1.1 r1.2
    ({ r2.1 with token := token, logged := some true }, r1.2, token)
  else
    ({ st with
        usuario := JsValue.null,
        persona := JsValue.null,
        tipoUsuarioId := JsValue.null,
        token := none,
        logged := some false },
     sto1, none)

/-- `verificarToken` (src/useUser.js:161-176): `false` when `logged` is
still `null` or no (truthy) token is held; otherwise decode the held
token and compare `new Date(decoded.exp * 1000)` with `new Date()`;
a decode failure (or a throwing field access) yields `false`. -/
def verificarToken (env : Env) (st : UserState) : Bool :=
  if st.logged.isNone || !(optStrTruthy st.token) then false
  else
    match st.token with
    | none => false
    | some t =>
      match env.jwtDecode t with
      | none => false
      | some decoded =>
        match decoded.getProp "exp" with
        | none => false
        | some expV =>
          match expV.toNumber with
          | none => false
          | some e => dateValid (e * 1000) && decide (e * 1000 ≥ env.now)

/-- JS `Array.prototype.includes(parseInt(x, 10))` over a list of integer
ids; a `NaN` (`none`) is a member of no list. -/
def includesParsedInt (ids : List Int) (x : Option String) : Bool :=
  match JsValue.parseIntStr (x.getD "null") with
  | none => false
  | some n => ids.contains n

/-- `checkLogged` (src/useUser.js:185-207): `true` unconditionally in
TEST mode; otherwise check the token freshly read from storage, delegate
expiry to `verificarToken` (which uses the in-memory token), and when an
allow-list is given test membership of the parsed persisted user-type id;
every failure performs `logout()` and returns `false`. -/
def checkLogged (env : Env) (tiposUsuariosId : List Int)
    (st : UserState) (sto : Storage) : UserState × Storage × Bool :=
  if env.TEST then (st, sto, true)
  else
    let token := Storage.getItem sto (env.BASENAME ++ "_token")
    if !(optStrTruthy token) then
      let r := logout st sto
      (r.1, r.2, false)
    else if verificarToken env st then
      let currentTipoUsuarioId := Storage.getItem sto (env.BASENAME ++ "_tipo_usuario_id")
      if tiposUsuariosId.length > 0 then
        (st, sto, includesParsedInt tiposUsuariosId currentTipoUsuarioId)
      else (st, sto, true)
    else
      let r := logout st sto
      (r.1, r.2, false)

/-- The operations of the Session Manager hook, for reasoning about
sequences of calls. -/
inductive Op where
  | login (token : String) (usuario : JsValue) : Op
  | logout : Op
  | getLocalData : Op
  | verificarToken : Op
  | checkLogged (tipos : List Int) : Op

/-- The state/storage effect of one operation (return values dropped;
`verificarToken` is read-only). -/
def step (env : Env) (op : Op) (s : UserState × Storage) : UserState × Storage :=
  match op with
  | Op.login t u => login env t u s.1 s.2
  | Op.logout => logout s.1 s.2
  | Op.getLocalData =>
    let r := getLocalData env s.1 s.2
    (r.1, r.2.1)
  | Op.verificarToken => s
  | Op.checkLogged tipos =>
    let r := checkLogged env tipos s.1 s.2
    (r.1, r.2.1)

/-- A `login` call that reaches its success path: valid `usuario`
argument, `jwtDecode` succeeds, and the field access
`decoded.data.tipo_usuario_id` does not throw. -/
def loginSucceeds (env : Env) (t : String) (u : JsValue) : Prop :=
  invalidUsuarioArg u = false ∧
  ∃ d, env.jwtDecode t = some d ∧
    ∃ dv, d.getProp "data" = some dv ∧
      ∃ tid, dv.getProp "tipo_usuario_id" = some tid

/-- A `getLocalData` call that takes its success branch: all three
persisted slots are present and truthy (the parsed record included). -/
def loadSucceeds (env : Env) (sto : Storage) : Prop :=
  (optStrTruthy (Storage.getItem sto (env.BASENAME ++ "_token")) &&
   optStrTruthy (Storage.getItem sto (env.BASENAME ++ "_tipo_usuario_id")) &&
   (getUsuarioFromStorage env sto).1.truthy) = true

/-! ### Helper lemmas about the storage model -/

theorem lookup_filter_ne (k k' : String) (h : k' ≠ k) :
    ∀ sto : Storage, List.lookup k' (sto.filter (fun p => p.1 ≠ k)) = List.lookup k' sto := by
  intro sto
  induction sto with
  | nil => simp
  | cons a rest ih =>
    simp only [decide_not] at ih ⊢
    by_cases hk : a.1 = k
    · have h2 : (k' == k) = false := by simp [h]
      simp [List.lookup, hk, h2, ih]
    · by_cases hk' : k' = a.1
      · simp [List.lookup, hk, hk']
      · have h2 : (k' == a.1) = false := by simp [hk']
        simp [List.lookup, hk, h2, ih]

theorem getItem_setItem_self (sto : Storage) (k v : String) :
    Storage.getItem (Storage.setItem sto k v) k = some v := by
  simp [Storage.getItem, Storage.setItem, List.lookup]

theorem getItem_setItem_other (sto : Storage) (k v k' : String) (h : k' ≠ k) :
    Storage.getItem (Storage.setItem sto k v) k' = Storage.getItem sto k' := by
  have h2 : (k' == k) = false := by simp [h]
  have h3 := lookup_filter_ne k k' h sto
  simp only [decide_not] at h3
  simp [Storage.getItem, Storage.setItem, List.lookup, h2, h3]

theorem append_ne_of_suffix_ne (p : String) {a b : String} (h : a ≠ b) :
    p ++ a ≠ p ++ b := by
  intro he
  apply h
  have hd := congrArg String.data he
  rw [String.data_append, String.data_append] at hd
  exact String.ext (List.append_cancel_left hd)

/-! ### Concrete fixtures -/

/-- The data section of the fixture token "tokA": a user-type id, a
person sub-record and a further field. -/
def dataSectionTokA : JsValue :=
  JsValue.obj [("tipo_usuario_id", JsValue.num 2),
    ("persona", JsValue.obj [("nombre", JsValue.str "Ana")]),
    ("mail", JsValue.str "a@b")]

/-- Decoded claims of the fixture token "tokA": expiry 2000 s and the
data section above. -/
def decodedTokA : JsValue :=
  JsValue.obj [("exp", JsValue.num 2000), ("data", dataSectionTokA)]

/-- Decoded claims of the fixture token "tokB": expiry 2000 s and a data
section carrying ONLY the user-type id (no embedded user data). -/
def decodedTokB : JsValue :=
  JsValue.obj [("exp", JsValue.num 2000),
    ("data", JsValue.obj [("tipo_usuario_id", JsValue.num 7)])]

/-- A concrete environment: prefix "app", test mode off, current time
1,000,000 ms; "tokA"/"tokB" decode to the fixtures above, everything else
throws; only the serialized empty object parses. -/
def envFix : Env :=
  { BASENAME := "app", TEST := false, now := 1000000,
    jwtDecode := fun s =>
      if s = "tokA" then some decodedTokA
      else if s = "tokB" then some decodedTokB
      else none,
    jsonParse := fun s => if s = "\x7b\x7d" then some (JsValue.obj []) else none }

/-- A state holding the fixture token "tokA", verified and logged in. -/
def stTok : UserState :=
  { usuario := JsValue.obj [("mail", JsValue.str "a@b")],
    persona := JsValue.obj [("nombre", JsValue.str "Ana")],
    tipoUsuarioId := JsValue.num 2, logged := some true, token := some "tokA" }

/-- A storage whose token slot holds the EMPTY string while all three
session keys are present and the serialized record parses. -/
def stoEmptyTok : Storage :=
  [("app_token", ""), ("app_tipo_usuario_id", "1"), ("app_datos", "\x7b\x7d")]

/-- A storage holding a complete, valid, unexpired persisted session for
`envFix`. -/
def stoValid : Storage :=
  [("app_token", "tokA"), ("app_tipo_usuario_id", "2"), ("app_datos", "\x7b\x7d")]

/-! ### The claims -/

theorem viteTestFlag_eq_toLower (s : String) :
    viteTestFlag (some s) = (jsToLowerCase s == "true") := by
  by_cases h : s = "" <;> simp [viteTestFlag, orEmpty, h]

/-- C1: the Config Provider's `TEST` flag is true exactly when the
matching environment string, lowercased, equals "true"; a missing value,
the empty string and "1" all give false.  (The claim's further assertion
that "True" gives false is refuted by `C1_cex_True_gives_true`: "True"
lowercases to "true", so it gives true.) -/
theorem C1_viteTestFlag_iff_lowercase :
    (∀ s : String, viteTestFlag (some s) = true ↔ jsToLowerCase s = "true") ∧
    viteTestFlag none = false ∧
    viteTestFlag (some "") = false ∧
    viteTestFlag (some "1") = false ∧
    viteTestFlag (some "True") = true ∧
    viteTestFlag (some "TRUE") = true := by
  refine ⟨?_, by decide, by decide, by decide, by decide, by decide⟩
  intro s
  rw [viteTestFlag_eq_toLower]
  simp

/-- C1 counterexample: the claim asserts that the input "True" yields
false, but the code lowercases first, so `TEST` is true for "True". -/
theorem C1_cex_True_gives_true :
    viteTestFlag (some "True") = true ∧ jsToLowerCase "True" = "true" := by decide

/-- C7: after `logout()` the three persisted entries are absent (indeed
ALL of storage is cleared), `logged` is `false` (not unknown), and the
in-memory user, person, token and user-type-id slots are all absent. -/
theorem C7_logout_resets_everything (env : Env) (st : UserState) (sto : Storage) :
    Storage.getItem (logout st sto).2 (env.BASENAME ++ "_token") = none ∧
    Storage.getItem (logout st sto).2 (env.BASENAME ++ "_tipo_usuario_id") = none ∧
    Storage.getItem (logout st sto).2 (env.BASENAME ++ "_datos") = none ∧
    (logout st sto).2 = [] ∧
    (logout st sto).1.logged = some false ∧
    (logout st sto).1.usuario = JsValue.null ∧
    (logout st sto).1.persona = JsValue.null ∧
    (logout st sto).1.token = none ∧
    (logout st sto).1.tipoUsuarioId = JsValue.null :=
  ⟨rfl, rfl, rfl, rfl, rfl, rfl, rfl, rfl, rfl⟩

/-- C6: `login` with a `fallbackUserData` argument rejected by the guard
`typeof usuario !== 'object' || usuario === null` (e.g. the string
"not-an-object") returns without mutating the in-memory state or the
storage, and without throwing (the embedding is a total function). -/
theorem C6_login_invalid_arg_is_noop (env : Env) (t : String) (u : JsValue)
    (st : UserState) (sto : Storage) (h : invalidUsuarioArg u = true) :
    login env t u st sto = (st, sto) := by
  simp [login, h]

theorem C6_login_invalid_arg_is_noop_witness :
    invalidUsuarioArg (JsValue.str "not-an-object") = true ∧
    login envFix "tokA" (JsValue.str "not-an-object") initState [("k", "v")]
      = (initState, [("k", "v")]) :=
  ⟨rfl, C6_login_invalid_arg_is_noop envFix "tokA" (JsValue.str "not-an-object")
    initState [("k", "v")] rfl⟩

/-- C5: when the token decode throws inside `login` (valid fallback
record supplied), the catch block runs `logout()`, so the final in-memory
state and storage are exactly those of an explicit `logout` call. -/
theorem C5_login_decode_failure_is_logout (env : Env) (t : String) (u : JsValue)
    (st : UserState) (sto : Storage)
    (hu : invalidUsuarioArg u = false) (hd : env.jwtDecode t = none) :
    login env t u st sto = logout st sto := by
  simp [login, hu, hd]

theorem C5_login_decode_failure_is_logout_witness :
    login envFix "bad" (JsValue.obj [("name", JsValue.str "A")]) initState [("k", "v")]
      = logout initState [("k", "v")] :=
  C5_login_decode_failure_is_logout envFix "bad" (JsValue.obj [("name", JsValue.str "A")])
    initState [("k", "v")] rfl rfl

/-- C4: `verificarToken` returns false when `logged` is unknown (still
`null`) or no token is held (the code's `!token` also treats an empty
string as no token); on a decode failure it returns false without
throwing; otherwise, for a held nonempty token whose decoded claims carry
a numeric `exp` that converts to a valid point in time, it returns true
iff `exp * 1000` (ms) is at or after the current time. -/
theorem C4_verificarToken_spec :
    (∀ env st, st.logged = none → verificarToken env st = false) ∧
    (∀ env st, st.token = none → verificarToken env st = false) ∧
    (∀ env st, st.token = some "" → verificarToken env st = false) ∧
    (∀ env st t, st.token = some t → env.jwtDecode t = none →
      verificarToken env st = false) ∧
    (∀ env st t d e, st.logged ≠ none → st.token = some t → t ≠ "" →
      env.jwtDecode t = some d → d.getProp "exp" = some (JsValue.num e) →
      dateValid (e * 1000) = true →
      (verificarToken env st = true ↔ e * 1000 ≥ env.now)) := by
  refine ⟨?_, ?_, ?_, ?_, ?_⟩
  · intro env st h
    simp [verificarToken, h]
  · intro env st h
    simp [verificarToken, h, optStrTruthy]
  · intro env st h
    simp [verificarToken, h, optStrTruthy]
  · intro env st t ht hd
    cases hl : st.logged with
    | none => simp [verificarToken, hl]
    | some b =>
      by_cases he : t = ""
      · subst he; simp [verificarToken, ht, optStrTruthy]
      · simp [verificarToken, hl, ht, optStrTruthy, he, hd]
  · intro env st t d e hl ht he hd hexp hdate
    cases hlog : st.logged with
    | none => exact absurd hlog hl
    | some b =>
      simp [verificarToken, hlog, ht, optStrTruthy, he, hd, hexp,
        JsValue.toNumber, hdate]

theorem C4_verificarToken_spec_witness :
    verificarToken envFix stTok = true ∧ verificarToken envFix initState = false :=
  ⟨(C4_verificarToken_spec.2.2.2.2 envFix stTok "tokA" decodedTokA 2000
      (by simp [stTok]) rfl (by decide) rfl rfl (by decide)).mpr (by decide),
   C4_verificarToken_spec.1 envFix initState rfl⟩

/-- C2 counterexample: "tokB" decodes successfully and its data section
carries nothing but the user-type id (no embedded user data), yet `login`
persists the data section itself and ignores the supplied fallback
record: `decoded.data || usuario` tests the truthiness of the whole data
section, and an object is always truthy. -/
theorem C2_cex_fallback_ignored :
    envFix.jwtDecode "tokB" = some decodedTokB ∧
    decodedTokB.getProp "data"
      = some (JsValue.obj [("tipo_usuario_id", JsValue.num 7)]) ∧
    Storage.getItem (login envFix "tokB" (JsValue.obj [("name", JsValue.str "A")])
        initState Storage.empty).2 "app_datos"
      = some "\x7b\"tipo_usuario_id\":7\x7d" ∧
    stringifyForStorage (JsValue.obj [("name", JsValue.str "A")])
      = "\x7b\"name\":\"A\"\x7d" ∧
    Storage.getItem (login envFix "tokB" (JsValue.obj [("name", JsValue.str "A")])
        initState Storage.empty).2 "app_datos"
      ≠ some "\x7b\"name\":\"A\"\x7d" :=
  ⟨rfl, rfl, rfl, rfl, by decide⟩

/-- C2 amended: for a decodable token (and a valid fallback record),
`const usuarioData = decoded.data || usuario` selects on the TRUTHINESS
of the entire data section, not on whether embedded user data is present:
(i) a truthy data section (any object, even one carrying nothing beyond
`tipo_usuario_id`) is itself persisted and set in memory, and the
fallback argument is ignored; (ii) the fallback is persisted only when
the data section is falsy yet not null/undefined (`false`, `0`, `""`);
(iii) a null, undefined or absent data section makes the field access
`decoded.data.tipo_usuario_id` throw, and login degenerates to a full
logout.  In cases (i)/(ii) the user-type id is read from the data
section. -/
theorem C2_login_data_selection :
    (∀ env t u st sto d dv, invalidUsuarioArg u = false →
      env.jwtDecode t = some d → d.getProp "data" = some dv → dv.truthy = true →
      ∃ tid, dv.getProp "tipo_usuario_id" = some tid ∧
        Storage.getItem (login env t u st sto).2 (env.BASENAME ++ "_datos")
          = some (stringifyForStorage dv) ∧
        Storage.getItem (login env t u st sto).2 (env.BASENAME ++ "_token") = some t ∧
        Storage.getItem (login env t u st sto).2 (env.BASENAME ++ "_tipo_usuario_id")
          = some tid.jsToString ∧
        (login env t u st sto).1.usuario = dv.spreadDelete "persona" ∧
        (login env t u st sto).1.persona = (dv.getProp "persona").getD JsValue.undef ∧
        (login env t u st sto).1.logged = some true ∧
        (login env t u st sto).1.token = some t) ∧
    (∀ env t u st sto d dv, invalidUsuarioArg u = false →
      env.jwtDecode t = some d → d.getProp "data" = some dv → dv.truthy = false →
      dv ≠ JsValue.null → dv ≠ JsValue.undef →
      Storage.getItem (login env t u st sto).2 (env.BASENAME ++ "_datos")
        = some (stringifyForStorage u)) ∧
    (∀ env t u st sto d, invalidUsuarioArg u = false →
      env.jwtDecode t = some d →
      (d.getProp "data" = some JsValue.null ∨ d.getProp "data" = some JsValue.undef ∨
        d.getProp "data" = none) →
      login env t u st sto = logout st sto) := by
  refine ⟨?_, ?_, ?_⟩
  · intro env t u st sto d dv hu hd hdata hdv
    have hneq1 : env.BASENAME ++ "_token" ≠ env.BASENAME ++ "_datos" :=
      append_ne_of_suffix_ne env.BASENAME (by decide)
    have hneq2 : env.BASENAME ++ "_token" ≠ env.BASENAME ++ "_tipo_usuario_id" :=
      append_ne_of_suffix_ne env.BASENAME (by decide)
    have hneq3 : env.BASENAME ++ "_tipo_usuario_id" ≠ env.BASENAME ++ "_datos" :=
      append_ne_of_suffix_ne env.BASENAME (by decide)
    obtain ⟨tid, htid⟩ : ∃ tid, dv.getProp "tipo_usuario_id" = some tid := by
      cases dv <;> simp [JsValue.getProp, JsValue.truthy] at hdv ⊢
    refine ⟨tid, htid, ?_, ?_, ?_, ?_, ?_, ?_, ?_⟩ <;>
      simp only [login, hu, Bool.false_eq_true, if_false, hd, hdata, htid, hdv, if_true,
        getUser, getTipoUsuario] <;>
      simp [hdv, getItem_setItem_self, getItem_setItem_other _ _ _ _ hneq1,
        getItem_setItem_other _ _ _ _ hneq2, getItem_setItem_other _ _ _ _ hneq3]
  · intro env t u st sto d dv hu hd hdata hdv hnull hundef
    have hut : u.truthy = true := by
      cases u <;> simp_all [invalidUsuarioArg, JsValue.jsTypeof, JsValue.truthy]
    have htid : dv.getProp "tipo_usuario_id" = some JsValue.undef := by
      cases dv <;> simp_all [JsValue.getProp, JsValue.truthy]
    simp only [login, hu, Bool.false_eq_true, if_false, hd, hdata, htid, hdv,
      getUser, getTipoUsuario]
    simp [hdv, hut, getItem_setItem_self]
  · intro env t u st sto d hu hd hdata
    rcases hdata with h | h | h
    · simp only [login, hu, Bool.false_eq_true, if_false, hd, h]
      simp [JsValue.getProp]
    · simp only [login, hu, Bool.false_eq_true, if_false, hd, h]
      simp [JsValue.getProp]
    · simp only [login, hu, Bool.false_eq_true, if_false, hd, h]

theorem C2_login_data_selection_witness :
    ∃ tid, dataSectionTokA.getProp "tipo_usuario_id" = some tid ∧
      Storage.getItem (login envFix "tokA" (JsValue.obj [("name", JsValue.str "A")])
          initState Storage.empty).2 (envFix.BASENAME ++ "_datos")
        = some (stringifyForStorage dataSectionTokA) ∧
      Storage.getItem (login envFix "tokA" (JsValue.obj [("name", JsValue.str "A")])
          initState Storage.empty).2 (envFix.BASENAME ++ "_token") = some "tokA" ∧
      Storage.getItem (login envFix "tokA" (JsValue.obj [("name", JsValue.str "A")])
          initState Storage.empty).2 (envFix.BASENAME ++ "_tipo_usuario_id")
        = some tid.jsToString ∧
      (login envFix "tokA" (JsValue.obj [("name", JsValue.str "A")])
          initState Storage.empty).1.usuario = dataSectionTokA.spreadDelete "persona" ∧
      (login envFix "tokA" (JsValue.obj [("name", JsValue.str "A")])
          initState Storage.empty).1.persona
        = (dataSectionTokA.getProp "persona").getD JsValue.undef ∧
      (login envFix "tokA" (JsValue.obj [("name", JsValue.str "A")])
          initState Storage.empty).1.logged = some true ∧
      (login envFix "tokA" (JsValue.obj [("name", JsValue.str "A")])
          initState Storage.empty).1.token = some "tokA" :=
  C2_login_data_selection.1 envFix "tokA" (JsValue.obj [("name", JsValue.str "A")])
    initState Storage.empty decodedTokA dataSectionTokA rfl rfl rfl rfl

/-- C8 counterexample: all three persisted slots are PRESENT and the
serialized record parses (to the truthy empty object), but the token slot
holds the empty string; the claim then demands `logged = true` and the
token returned, yet the code's truthiness guard `if (token && ...)`
treats the empty string like a missing slot: it clears the in-memory
state, sets `logged = false` and returns null. -/
theorem C8_cex_empty_string_token :
    Storage.getItem stoEmptyTok "app_token" = some "" ∧
    Storage.getItem stoEmptyTok "app_tipo_usuario_id" = some "1" ∧
    Storage.getItem stoEmptyTok "app_datos" = some "\x7b\x7d" ∧
    (∃ v, envFix.jsonParse "\x7b\x7d" = some v ∧ v.truthy = true) ∧
    (getLocalData envFix initState stoEmptyTok).1.logged = some false ∧
    (getLocalData envFix initState stoEmptyTok).2.2 = none :=
  ⟨rfl, rfl, rfl, ⟨JsValue.obj [], rfl, rfl⟩, rfl, rfl⟩

/-- C8 amended: `getLocalData` branches on TRUTHINESS, not on mere
presence: (i) when the token and user-type slots hold nonempty strings
and the stored record parses to a truthy value, it splits out the person
sub-record, sets `logged = true` and returns the token; (ii) when any of
the three slots is missing, holds the empty string, or yields a falsy
parsed record, it clears the in-memory state to absent/false and returns
null; (iii) when the record slot is present and nonempty but fails to
parse, ALL persisted storage is cleared (not just the three session keys)
and the session is treated as absent. -/
theorem C8_getLocalData_branches :
    (∀ env st sto, loadSucceeds env sto →
      (getLocalData env st sto).1.logged = some true ∧
      (getLocalData env st sto).2.2 = Storage.getItem sto (env.BASENAME ++ "_token") ∧
      (getLocalData env st sto).1.token = Storage.getItem sto (env.BASENAME ++ "_token") ∧
      (getLocalData env st sto).1.usuario
        = (getUsuarioFromStorage env sto).1.spreadDelete "persona" ∧
      (getLocalData env st sto).1.persona
        = ((getUsuarioFromStorage env sto).1.getProp "persona").getD JsValue.undef) ∧
    (∀ env st sto, ¬ loadSucceeds env sto →
      (getLocalData env st sto).1.logged = some false ∧
      (getLocalData env st sto).2.2 = none ∧
      (getLocalData env st sto).1.usuario = JsValue.null ∧
      (getLocalData env st sto).1.persona = JsValue.null ∧
      (getLocalData env st sto).1.tipoUsuarioId = JsValue.null ∧
      (getLocalData env st sto).1.token = none) ∧
    (∀ env st sto s, Storage.getItem sto (env.BASENAME ++ "_datos") = some s →
      s ≠ "" → env.jsonParse s = none →
      (getLocalData env st sto).2.1 = [] ∧ (getLocalData env st sto).2.2 = none) := by
  refine ⟨?_, ?_, ?_⟩
  · intro env st sto h
    simp only [loadSucceeds] at h
    have h' := h
    rw [Bool.and_eq_true, Bool.and_eq_true] at h'
    obtain ⟨⟨h1, h2⟩, h3⟩ := h'
    refine ⟨?_, ?_, ?_, ?_, ?_⟩ <;>
      simp [getLocalData, h, h1, h2, h3, getUser, getTipoUsuario]
  · intro env st sto h
    simp only [loadSucceeds] at h
    have h' : (optStrTruthy (Storage.getItem sto (env.BASENAME ++ "_token")) &&
        optStrTruthy (Storage.getItem sto (env.BASENAME ++ "_tipo_usuario_id")) &&
        (getUsuarioFromStorage env sto).1.truthy) = false := by
      exact Bool.not_eq_true _ |>.mp h
    refine ⟨?_, ?_, ?_, ?_, ?_, ?_⟩ <;> simp [getLocalData, h']
  · intro env st sto s hs hse hp
    have hg : getUsuarioFromStorage env sto = (JsValue.null, ([] : Storage)) := by
      simp [getUsuarioFromStorage, hs, hse, hp, Storage.clear]
    refine ⟨?_, ?_⟩ <;> simp [getLocalData, hg, JsValue.truthy]

theorem C8_getLocalData_branches_witness :
    ((getLocalData envFix initState stoValid).1.logged = some true ∧
      (getLocalData envFix initState stoValid).2.2
        = Storage.getItem stoValid (envFix.BASENAME ++ "_token") ∧
      (getLocalData envFix initState stoValid).1.token
        = Storage.getItem stoValid (envFix.BASENAME ++ "_token") ∧
      (getLocalData envFix initState stoValid).1.usuario
        = (getUsuarioFromStorage envFix stoValid).1.spreadDelete "persona" ∧
      (getLocalData envFix initState stoValid).1.persona
        = ((getUsuarioFromStorage envFix stoValid).1.getProp "persona").getD JsValue.undef) ∧
    ((getLocalData envFix initState [("app_datos", "bad")]).2.1 = [] ∧
      (getLocalData envFix initState [("app_datos", "bad")]).2.2 = none) :=
  ⟨C8_getLocalData_branches.1 envFix initState stoValid
     (by simp only [loadSucceeds]; decide),
   C8_getLocalData_branches.2.2 envFix initState [("app_datos", "bad")] "bad"
     rfl (by decide) rfl⟩

/-- What a successful `verificarToken` implies: `logged` already known, a
held nonempty token, a successful decode, and an unexpired (valid-date)
expiry. -/
theorem verificarToken_true_elim (env : Env) (st : UserState)
    (h : verificarToken env st = true) :
    st.logged ≠ none ∧
    ∃ t d ev e, st.token = some t ∧ t ≠ "" ∧ env.jwtDecode t = some d ∧
      d.getProp "exp" = some ev ∧ ev.toNumber = some e ∧
      dateValid (e * 1000) = true ∧ e * 1000 ≥ env.now := by
  rw [verificarToken] at h
  split at h
  · exact absurd h (by simp)
  · rename_i hguard
    rw [Bool.not_eq_true, Bool.or_eq_false_iff] at hguard
    obtain ⟨hlog, htok⟩ := hguard
    cases ht : st.token with
    | none => rw [ht] at h; exact absurd h (by simp)
    | some t =>
      rw [ht] at h htok
      dsimp only at h
      cases hd : env.jwtDecode t with
      | none => rw [hd] at h; exact absurd h (by simp)
      | some d =>
        rw [hd] at h
        dsimp only at h
        cases hexp : d.getProp "exp" with
        | none => rw [hexp] at h; exact absurd h (by simp)
        | some ev =>
          rw [hexp] at h
          dsimp only at h
          cases hnum : ev.toNumber with
          | none => rw [hnum] at h; exact absurd h (by simp)
          | some e =>
            rw [hnum] at h
            dsimp only at h
            rw [Bool.and_eq_true] at h
            refine ⟨?_, ?_⟩
            · intro hn
              rw [hn] at hlog
              simp at hlog
            · exact ⟨t, d, ev, e, rfl, by simpa [optStrTruthy] using htok, hd, hexp, hnum,
                h.1, of_decide_eq_true h.2⟩

/-- C3: in test mode `checkLogged` returns true unconditionally,
bypassing every check; with test mode off, on any state satisfying the
reachable-state invariant that `logged = false` implies no held token
(see `loggedFalse_noToken_invariant`), `checkLogged [1,2,3] = true`
implies the session is logged (`logged = some true`), the held in-memory
token decodes with an unexpired expiry, and the persisted user-type id
parses to a member of {1,2,3}. -/
theorem C3_checkLogged_gate :
    (∀ env tipos st sto, env.TEST = true → (checkLogged env tipos st sto).2.2 = true) ∧
    (∀ env st sto, env.TEST = false → (st.logged = some false → st.token = none) →
      (checkLogged env [1, 2, 3] st sto).2.2 = true →
      st.logged = some true ∧
      (∃ t d ev e, st.token = some t ∧ env.jwtDecode t = some d ∧
        d.getProp "exp" = some ev ∧ ev.toNumber = some e ∧
        dateValid (e * 1000) = true ∧ e * 1000 ≥ env.now) ∧
      (∃ n, JsValue.parseIntStr
          ((Storage.getItem sto (env.BASENAME ++ "_tipo_usuario_id")).getD "null")
          = some n ∧ (n = 1 ∨ n = 2 ∨ n = 3))) := by
  refine ⟨?_, ?_⟩
  · intro env tipos st sto hT
    simp [checkLogged, hT]
  · intro env st sto hT hinv hres
    by_cases htk : optStrTruthy (Storage.getItem sto (env.BASENAME ++ "_token")) = true
    · by_cases hv : verificarToken env st = true
      · have hinc : includesParsedInt [1, 2, 3]
            (Storage.getItem sto (env.BASENAME ++ "_tipo_usuario_id")) = true := by
          simpa [checkLogged, hT, htk, hv] using hres
        obtain ⟨hlog, t, d, ev, e, ht, hte, hd, hexp, hnum, hdate, hge⟩ :=
          verificarToken_true_elim env st hv
        refine ⟨?_, ⟨t, d, ev, e, ht, hd, hexp, hnum, hdate, hge⟩, ?_⟩
        · cases hl : st.logged with
          | none => exact absurd hl hlog
          | some b =>
            cases b with
            | false =>
              rw [hinv hl] at ht
              exact absurd ht (by simp)
            | true => rfl
        · rw [includesParsedInt] at hinc
          cases hp : JsValue.parseIntStr
              ((Storage.getItem sto (env.BASENAME ++ "_tipo_usuario_id")).getD "null") with
          | none =>
            rw [hp] at hinc
            exact absurd hinc (by simp)
          | some n =>
            rw [hp] at hinc
            dsimp only at hinc
            have hmem : n ∈ ([1, 2, 3] : List Int) := by simpa using hinc
            exact ⟨n, rfl, by simpa using hmem⟩
      · exfalso
        rw [Bool.not_eq_true] at hv
        simp [checkLogged, hT, htk, hv] at hres
    · exfalso
      rw [Bool.not_eq_true] at htk
      simp [checkLogged, hT, htk] at hres

theorem C3_checkLogged_gate_witness :
    (checkLogged { envFix with TEST := true } [9] initState Storage.empty).2.2 = true ∧
    (stTok.logged = some true ∧
      (∃ t d ev e, stTok.token = some t ∧ envFix.jwtDecode t = some d ∧
        d.getProp "exp" = some ev ∧ ev.toNumber = some e ∧
        dateValid (e * 1000) = true ∧ e * 1000 ≥ envFix.now) ∧
      (∃ n, JsValue.parseIntStr
          ((Storage.getItem stoValid (envFix.BASENAME ++ "_tipo_usuario_id")).getD "null")
          = some n ∧ (n = 1 ∨ n = 2 ∨ n = 3))) :=
  ⟨C3_checkLogged_gate.1 { envFix with TEST := true } [9] initState Storage.empty rfl,
   C3_checkLogged_gate.2 envFix stTok stoValid rfl
     (by intro h; exact absurd h (by decide)) (by decide)⟩

/-- The in-memory state after a `logout` (every slot reset, `logged = false`). -/
def loggedOutState : UserState :=
  { usuario := JsValue.null, persona := JsValue.null, tipoUsuarioId := JsValue.null,
    logged := some false, token := none }

/-- `logout` ignores its inputs: reset state, cleared storage. -/
theorem logout_eq (st : UserState) (sto : Storage) : logout st sto = (loggedOutState, []) := rfl

/-- `getUser` never touches the `logged` slot. -/
theorem getUser_fst_logged (env : Env) (p : JsValue) (st : UserState) (sto : Storage) :
    (getUser env p st sto).1.logged = st.logged := by
  rw [getUser]
  split <;> first | rfl | (split <;> rfl)

/-- `getUser` never touches the `token` slot. -/
theorem getUser_fst_token (env : Env) (p : JsValue) (st : UserState) (sto : Storage) :
    (getUser env p st sto).1.token = st.token := by
  rw [getUser]
  split <;> first | rfl | (split <;> rfl)

/-- `getTipoUsuario` never touches the `logged` slot. -/
theorem getTipoUsuario_fst_logged (env : Env) (tipo : JsValue) (st : UserState) (sto : Storage) :
    (getTipoUsuario env tipo st sto).1.logged = st.logged := rfl

/-- `getTipoUsuario` never touches the `token` slot. -/
theorem getTipoUsuario_fst_token (env : Env) (tipo : JsValue) (st : UserState) (sto : Storage) :
    (getTipoUsuario env tipo st sto).1.token = st.token := rfl

/-- A `login` that reaches its success path sets `logged = true` and
holds the token. -/
theorem login_succeeds_result (env : Env) (t : String) (u : JsValue)
    (st : UserState) (sto : Storage) (h : loginSucceeds env t u) :
    (login env t u st sto).1.logged = some true ∧
    (login env t u st sto).1.token = some t := by
  obtain ⟨hu, d, hd, dv, hdata, tid, htid⟩ := h
  rw [login]
  simp only [hu, Bool.false_eq_true, if_false, hd, hdata, htid]
  constructor
  · rw [getTipoUsuario_fst_logged, getUser_fst_logged]
  · rw [getTipoUsuario_fst_token, getUser_fst_token]

/-- The three possible outcomes of `login`: rejected argument (no
mutation), failure inside the `try` (full logout), or success. -/
theorem login_shape (env : Env) (t : String) (u : JsValue)
    (st : UserState) (sto : Storage) :
    (invalidUsuarioArg u = true ∧ login env t u st sto = (st, sto)) ∨
    (invalidUsuarioArg u = false ∧ ¬ loginSucceeds env t u ∧
      login env t u st sto = (loggedOutState, [])) ∨
    (invalidUsuarioArg u = false ∧ loginSucceeds env t u ∧
      (login env t u st sto).1.logged = some true ∧
      (login env t u st sto).1.token = some t) := by
  by_cases hu : invalidUsuarioArg u = true
  · exact Or.inl ⟨hu, by simp [login, hu]⟩
  · rw [Bool.not_eq_true] at hu
    cases hd : env.jwtDecode t with
    | none =>
      refine Or.inr (Or.inl ⟨hu, ?_, by simp [login, hu, hd, logout_eq]⟩)
      rintro ⟨-, d, hd2, -⟩
      rw [hd] at hd2
      exact Option.noConfusion hd2
    | some d =>
      cases hdata : d.getProp "data" with
      | none =>
        refine Or.inr (Or.inl ⟨hu, ?_, by simp [login, hu, hd, hdata, logout_eq]⟩)
        rintro ⟨-, d2, hd2, dv, hdata2, -⟩
        rw [hd] at hd2
        injection hd2 with hdd
        rw [← hdd] at hdata2
        rw [hdata] at hdata2
        exact Option.noConfusion hdata2
      | some dv =>
        cases htid : dv.getProp "tipo_usuario_id" with
        | none =>
          refine Or.inr (Or.inl ⟨hu, ?_, by simp [login, hu, hd, hdata, htid, logout_eq]⟩)
          rintro ⟨-, d2, hd2, dv2, hdata2, tid2, htid2⟩
          rw [hd] at hd2
          injection hd2 with hdd
          rw [← hdd] at hdata2
          rw [hdata] at hdata2
          injection hdata2 with hdv
          rw [← hdv] at htid2
          rw [htid] at htid2
          exact Option.noConfusion htid2
        | some tid =>
          have hsucc : loginSucceeds env t u := ⟨hu, d, hd, dv, hdata, tid, htid⟩
          exact Or.inr (Or.inr ⟨hu, hsucc, login_succeeds_result env t u st sto hsucc⟩)

/-- The success branch of `getLocalData`. -/
theorem getLocalData_success (env : Env) (st : UserState) (sto : Storage)
    (h : loadSucceeds env sto) :
    (getLocalData env st sto).1.logged = some true ∧
    (getLocalData env st sto).1.token = Storage.getItem sto (env.BASENAME ++ "_token") := by
  simp only [loadSucceeds] at h
  constructor <;> simp [getLocalData, h]

/-- The failure branch of `getLocalData`. -/
theorem getLocalData_failure (env : Env) (st : UserState) (sto : Storage)
    (h : ¬ loadSucceeds env sto) :
    (getLocalData env st sto).1.logged = some false ∧
    (getLocalData env st sto).1.token = none := by
  simp only [loadSucceeds] at h
  rw [Bool.not_eq_true] at h
  constructor <;> simp [getLocalData, h]

/-- `checkLogged` either leaves state and storage untouched, or (test
mode off) performs a full logout and returns false. -/
theorem checkLogged_shape (env : Env) (tipos : List Int) (st : UserState) (sto : Storage) :
    ((checkLogged env tipos st sto).1 = st ∧ (checkLogged env tipos st sto).2.1 = sto) ∨
    (env.TEST = false ∧
      checkLogged env tipos st sto = (loggedOutState, [], false)) := by
  by_cases hT : env.TEST = true
  · exact Or.inl (by constructor <;> simp [checkLogged, hT])
  · rw [Bool.not_eq_true] at hT
    by_cases htk : optStrTruthy (Storage.getItem sto (env.BASENAME ++ "_token")) = true
    · by_cases hv : verificarToken env st = true
      · refine Or.inl ?_
        by_cases hl : tipos.length > 0
        · constructor <;> simp [checkLogged, hT, htk, hv, hl]
        · constructor <;> simp [checkLogged, hT, htk, hv, hl]
      · rw [Bool.not_eq_true] at hv
        exact Or.inr ⟨hT, by simp [checkLogged, hT, htk, hv, logout_eq]⟩
    · rw [Bool.not_eq_true] at htk
      exact Or.inr ⟨hT, by simp [checkLogged, hT, htk, logout_eq]⟩

/-- The invariant assumed by `C3_checkLogged_gate`: `logged = false`
only with no held token.  It holds initially and every operation
preserves it, so it holds on every reachable state. -/
theorem loggedFalse_noToken_invariant :
    (initState.logged = some false → initState.token = none) ∧
    (∀ env op s, (s.1.logged = some false → s.1.token = none) →
      ((step env op s).1.logged = some false → (step env op s).1.token = none)) := by
  refine ⟨fun h => absurd h (by decide), ?_⟩
  intro env op s h
  cases op with
  | login t u =>
    rcases login_shape env t u s.1 s.2 with ⟨-, heq⟩ | ⟨-, -, heq⟩ | ⟨-, -, hl, -⟩
    · simp only [step, heq]
      exact h
    · simp only [step, heq]
      intro _
      rfl
    · simp only [step] at hl ⊢
      rw [hl]
      intro hf
      exact absurd hf (by decide)
  | logout =>
    intro _
    rfl
  | getLocalData =>
    by_cases hls : loadSucceeds env s.2
    · have := (getLocalData_success env s.1 s.2 hls).1
      simp only [step]
      rw [this]
      intro hf
      exact absurd hf (by decide)
    · have := getLocalData_failure env s.1 s.2 hls
      simp only [step]
      rw [this.2]
      intro _
      rfl
  | verificarToken => exact h
  | checkLogged l =>
    rcases checkLogged_shape env l s.1 s.2 with ⟨h1, -⟩ | ⟨-, heq⟩
    · simp only [step, h1]
      exact h
    · simp only [step, heq]
      intro _
      rfl

/-- C9 amended: the `logged` slot starts unknown (`null`); it transitions
to true only via a successful `login` or a successful `getLocalData`; it
transitions to false only via `logout`, a failed `login`, a failed
`getLocalData` (the cause missing from the claim's list, see the
counterexample), or a `checkLogged` call that returns false after a
logout; `logout`, failed `login` and a failed expiry check inside
`checkLogged` each do produce `logged = false`; and no operation ever
returns the slot to unknown. -/
theorem C9_logged_state_machine :
    initState.logged = none ∧
    (∀ env op s, s.1.logged ≠ some true → (step env op s).1.logged = some true →
      (∃ t u, op = Op.login t u ∧ loginSucceeds env t u) ∨
      (op = Op.getLocalData ∧ loadSucceeds env s.2)) ∧
    (∀ env op s, s.1.logged ≠ some false → (step env op s).1.logged = some false →
      op = Op.logout ∨
      (∃ t u, op = Op.login t u ∧ invalidUsuarioArg u = false ∧ ¬ loginSucceeds env t u) ∨
      (op = Op.getLocalData ∧ ¬ loadSucceeds env s.2) ∨
      (∃ l, op = Op.checkLogged l ∧ env.TEST = false ∧
        (checkLogged env l s.1 s.2).2.2 = false)) ∧
    (∀ env s, (step env Op.logout s).1.logged = some false) ∧
    (∀ env t u s, invalidUsuarioArg u = false → env.jwtDecode t = none →
      (step env (Op.login t u) s).1.logged = some false) ∧
    (∀ env l s, env.TEST = false →
      optStrTruthy (Storage.getItem s.2 (env.BASENAME ++ "_token")) = true →
      verificarToken env s.1 = false →
      (step env (Op.checkLogged l) s).1.logged = some false) ∧
    (∀ env op s, s.1.logged ≠ none → (step env op s).1.logged ≠ none) := by
  refine ⟨rfl, ?_, ?_, ?_, ?_, ?_, ?_⟩
  · intro env op s hne hl
    cases op with
    | login t u =>
      rcases login_shape env t u s.1 s.2 with ⟨-, heq⟩ | ⟨-, -, heq⟩ | ⟨-, hsucc, -, -⟩
      · simp only [step, heq] at hl
        exact absurd hl hne
      · simp only [step, heq] at hl
        exact absurd hl (by decide)
      · exact Or.inl ⟨t, u, rfl, hsucc⟩
    | logout =>
      simp only [step, logout_eq] at hl
      exact absurd hl (by decide)
    | getLocalData =>
      by_cases hls : loadSucceeds env s.2
      · exact Or.inr ⟨rfl, hls⟩
      · simp only [step] at hl
        rw [(getLocalData_failure env s.1 s.2 hls).1] at hl
        exact absurd hl (by decide)
    | verificarToken => exact absurd hl hne
    | checkLogged l =>
      rcases checkLogged_shape env l s.1 s.2 with ⟨h1, -⟩ | ⟨-, heq⟩
      · simp only [step, h1] at hl
        exact absurd hl hne
      · simp only [step, heq] at hl
        exact absurd hl (by decide)
  · intro env op s hne hl
    cases op with
    | login t u =>
      rcases login_shape env t u s.1 s.2 with ⟨-, heq⟩ | ⟨hu, hns, heq⟩ | ⟨-, -, hlg, -⟩
      · simp only [step, heq] at hl
        exact absurd hl hne
      · exact Or.inr (Or.inl ⟨t, u, rfl, hu, hns⟩)
      · simp only [step] at hl
        rw [hlg] at hl
        exact absurd hl (by decide)
    | logout => exact Or.inl rfl
    | getLocalData =>
      by_cases hls : loadSucceeds env s.2
      · simp only [step] at hl
        rw [(getLocalData_success env s.1 s.2 hls).1] at hl
        exact absurd hl (by decide)
      · exact Or.inr (Or.inr (Or.inl ⟨rfl, hls⟩))
    | verificarToken => exact absurd hl hne
    | checkLogged l =>
      rcases checkLogged_shape env l s.1 s.2 with ⟨h1, -⟩ | ⟨hT, heq⟩
      · simp only [step, h1] at hl
        exact absurd hl hne
      · refine Or.inr (Or.inr (Or.inr ⟨l, rfl, hT, ?_⟩))
        rw [heq]
  · intro env s
    rfl
  · intro env t u s hu hd
    simp only [step]
    simp [login, hu, hd, logout]
  · intro env l s hT htk hv
    rw [Bool.eq_false_iff] at hv
    simp only [step]
    simp [checkLogged, hT, htk, hv, logout_eq]
    rfl
  · intro env op s hne
    cases op with
    | login t u =>
      rcases login_shape env t u s.1 s.2 with ⟨-, heq⟩ | ⟨-, -, heq⟩ | ⟨-, -, hlg, -⟩
      · simp only [step, heq]
        exact hne
      · simp only [step, heq]
        decide
      · simp only [step] at hlg ⊢
        rw [hlg]
        decide
    | logout =>
      simp only [step, logout_eq]
      decide
    | getLocalData =>
      by_cases hls : loadSucceeds env s.2
      · simp only [step]
        rw [(getLocalData_success env s.1 s.2 hls).1]
        decide
      · simp only [step]
        rw [(getLocalData_failure env s.1 s.2 hls).1]
        decide
    | verificarToken => exact hne
    | checkLogged l =>
      rcases checkLogged_shape env l s.1 s.2 with ⟨h1, -⟩ | ⟨-, heq⟩
      · simp only [step, h1]
        exact hne
      · simp only [step, heq]
        decide

theorem C9_logged_state_machine_witness :
    (∃ t u, Op.login "tokA" (JsValue.obj [("name", JsValue.str "A")]) = Op.login t u ∧
      loginSucceeds envFix t u) ∨
    (Op.login "tokA" (JsValue.obj [("name", JsValue.str "A")]) = Op.getLocalData ∧
      loadSucceeds envFix []) :=
  C9_logged_state_machine.2.1 envFix
    (Op.login "tokA" (JsValue.obj [("name", JsValue.str "A")]))
    (initState, []) (by decide) rfl

/-- C9 counterexample: from the initial state (logged unknown) and empty
storage, `getLocalData` transitions `logged` to false — but a failed
loadFromStorage is not among the claim's listed causes of a transition to
false (logout, failed login, failed checkLogged/expiry). -/
theorem C9_cex_load_failure_sets_false :
    initState.logged = none ∧
    (step envFix Op.getLocalData (initState, [])).1.logged = some false ∧
    Op.getLocalData ≠ Op.logout ∧
    (∀ t u, Op.getLocalData ≠ Op.login t u) ∧
    (∀ l, Op.getLocalData ≠ Op.checkLogged l) :=
  ⟨rfl, rfl, fun h => Op.noConfusion h, fun _ _ h => Op.noConfusion h,
   fun _ h => Op.noConfusion h⟩

/-- C10: on a fresh instance (logged still unknown, nothing in memory)
with test mode off, `checkLogged` reads a present — even valid and
unexpired — token from persisted storage, but then delegates to
`verificarToken`, which inspects only the IN-MEMORY state and fails
because `logged` is `null`; `checkLogged` therefore logs out, wiping ALL
persisted storage, returns false, and a subsequent `getLocalData` finds
nothing: the valid persisted session is destroyed instead of loaded. -/
theorem C10_checkLogged_destroys_valid_persisted_session
    (env : Env) (st : UserState) (sto : Storage) (tipos : List Int) (t : String)
    (hT : env.TEST = false) (hlog : st.logged = none)
    (htk : Storage.getItem sto (env.BASENAME ++ "_token") = some t) (hne : t ≠ "")
    (_hvalid : ∃ d e, env.jwtDecode t = some d ∧ d.getProp "exp" = some (JsValue.num e) ∧
      dateValid (e * 1000) = true ∧ e * 1000 ≥ env.now) :
    (checkLogged env tipos st sto).2.2 = false ∧
    (checkLogged env tipos st sto).1 = loggedOutState ∧
    (checkLogged env tipos st sto).2.1 = [] ∧
    (getLocalData env (checkLogged env tipos st sto).1
      (checkLogged env tipos st sto).2.1).2.2 = none := by
  have hv : verificarToken env st = false := by simp [verificarToken, hlog]
  have htk' : optStrTruthy (Storage.getItem sto (env.BASENAME ++ "_token")) = true := by
    simp [htk, optStrTruthy, hne]
  have hck : checkLogged env tipos st sto = (loggedOutState, [], false) := by
    rw [Bool.eq_false_iff] at hv
    simp [checkLogged, hT, htk', hv, logout_eq]
  refine ⟨by rw [hck], by rw [hck], by rw [hck], ?_⟩
  rw [hck]
  simp [getLocalData, Storage.getItem, List.lookup, optStrTruthy, getUsuarioFromStorage]

theorem C10_checkLogged_destroys_valid_persisted_session_witness :
    (checkLogged envFix [] initState stoValid).2.2 = false ∧
    (checkLogged envFix [] initState stoValid).1 = loggedOutState ∧
    (checkLogged envFix [] initState stoValid).2.1 = [] ∧
    (getLocalData envFix (checkLogged envFix [] initState stoValid).1
      (checkLogged envFix [] initState stoValid).2.1).2.2 = none :=
  C10_checkLogged_destroys_valid_persisted_session envFix initState stoValid [] "tokA"
    rfl rfl rfl (by decide) ⟨decodedTokA, 2000, rfl, rfl, by decide, by decide⟩
